import Mathlib

/-!
Verification of the sentencepiece Rust binding (`src/sentencepiece/src/lib.rs`
and `src/sentencepiece/src/sentencepiece.rs`) as a shallow embedding.

Byte sequences (Rust `&[u8]`, `&str` contents, `OsStr` bytes) are modelled as
`List Nat`; machine integers as `Nat`/`Int` with explicit wrapping where the
source casts. The native sentencepiece engine sits behind the C FFI: every
native call is modelled as an explicit function parameter, so a theorem
quantifying over that parameter states a property of the binding alone,
independent of the engine's behaviour. Rust panics (`assert!`, `expect`,
`unreachable!`) are modelled by an explicit `Outcome.panics` value.
-/

namespace SP

deriving instance DecidableEq for Except

/-- Result of a Rust computation that can panic (`assert!`, `expect`,
`unreachable!`): either it panics or it returns a value. -/
inductive Outcome (α : Type) where
  | panics : Outcome α
  | returns : α → Outcome α
deriving DecidableEq, Repr

/-- `CSentencePieceError` from lib.rs: the sixteen status codes of the native
library, with the discriminants assigned in the source (note the source lists
`Unauthenticated = 16` between `PermissionDenied = 7` and
`ResourceExhausted = 8`). -/
inductive CSentencePieceError where
  | Cancelled
  | Unknown
  | InvalidArgument
  | DeadlineExceeded
  | NotFound
  | AlreadyExists
  | PermissionDenied
  | Unauthenticated
  | ResourceExhausted
  | FailedPrecondition
  | Aborted
  | OutOfRange
  | Unimplemented
  | Internal
  | Unavailable
  | DataLoss
deriving DecidableEq, Repr, Fintype

/-- `SentencePieceError` from lib.rs. `FilenameContainsNul` carries the path
(modelled by its byte sequence). -/
inductive SentencePieceError where
  | CError : CSentencePieceError → SentencePieceError
  | EncodeError : SentencePieceError
  | FilenameContainsNul : List Nat → SentencePieceError
  | MissingData : String → SentencePieceError
  | PieceContainsNul : SentencePieceError
deriving DecidableEq, Repr

/-- The derived `FromPrimitive::from_i32` for `CSentencePieceError`: each
discriminant value names its variant, anything else is `none`. -/
def from_i32 (code : Int) : Option CSentencePieceError :=
  if code = 1 then some .Cancelled
  else if code = 2 then some .Unknown
  else if code = 3 then some .InvalidArgument
  else if code = 4 then some .DeadlineExceeded
  else if code = 5 then some .NotFound
  else if code = 6 then some .AlreadyExists
  else if code = 7 then some .PermissionDenied
  else if code = 8 then some .ResourceExhausted
  else if code = 9 then some .FailedPrecondition
  else if code = 10 then some .Aborted
  else if code = 11 then some .OutOfRange
  else if code = 12 then some .Unimplemented
  else if code = 13 then some .Internal
  else if code = 14 then some .Unavailable
  else if code = 15 then some .DataLoss
  else if code = 16 then some .Unauthenticated
  else none

/-- The status-handling pattern repeated after every fallible native call in
lib.rs: `if result == 0 { Ok(..) } else { match FromPrimitive::from_i32(result)
{ Some(error) => error, None => unreachable!() } }`. `returns none` is the
success branch, `returns (some e)` the translated error, `panics` the
`unreachable!()` arm for an unmapped non-zero code. -/
def handle_status (result : Int) : Outcome (Option CSentencePieceError) :=
  if result = 0 then .returns none
  else
    match from_i32 result with
    | some e => .returns (some e)
    | none => .panics

/-- `SentencePiece` from sentencepiece.rs: one piece record of the wire
message; all five fields are optional at the schema level. `end_` stands for
the source field `end` (a Lean keyword). -/
structure SentencePiece where
  piece : Option String
  id : Option Nat
  surface : Option String
  begin : Option Nat
  end_ : Option Nat
deriving DecidableEq, Repr

/-- IEEE-754 binary32 value as its bit fields, modelling Rust `f32`:
sign bit, 8-bit biased exponent, 23-bit fraction. -/
structure F32 where
  sign : Bool
  expo : Nat
  frac : Nat
deriving DecidableEq, Repr

/-- Rust `f32::is_normal`: neither zero, subnormal, infinite nor NaN, i.e.
the biased exponent is in 1..=254. -/
def F32.is_normal (x : F32) : Bool :=
  1 ≤ x.expo && x.expo ≤ 254

/-- `num_traits::Signed::is_positive` for `f32`:
`self > 0.0 || (1.0 / self) == infinity`. True exactly for non-negative-signed
values other than NaN (positive normals, positive subnormals, `+0.0` via the
`1/x = +inf` disjunct, and `+inf`). -/
def F32.is_positive (x : F32) : Bool :=
  !x.sign && !(x.expo == 255 && x.frac != 0)

/-- Finite per IEEE-754: the biased exponent is not all-ones (neither
infinity nor NaN). -/
def F32.is_finite (x : F32) : Bool :=
  x.expo != 255

/-- Strictly positive per IEEE-754: non-NaN, sign bit clear, and not a zero
(some exponent or fraction bit set). Used to state the spec's
"strictly positive and finite" precondition. -/
def F32.strictly_positive (x : F32) : Bool :=
  !x.sign && !(x.expo == 255 && x.frac != 0) && (x.expo != 0 || x.frac != 0)

/-- `SentencePieceText` from sentencepiece.rs: the wire message an encode
response deserializes to. -/
structure SentencePieceText where
  piece : Option String
  pieces : List SentencePiece
  score : Option F32
deriving DecidableEq, Repr

/-- `PieceWithId` from lib.rs: the decoded result unit handed to callers. -/
structure PieceWithId where
  piece : String
  id : Nat
  span : Nat × Nat
deriving DecidableEq, Repr

/-- The per-record body of the closure in `process_encode_protobuf`: each of
the four consumed fields is unwrapped with
`ok_or_else(|| MissingData(name))?`, in source order piece, id, begin, end. -/
def convert_piece (p : SentencePiece) : Except SentencePieceError PieceWithId :=
  match p.piece with
  | none => .error (.MissingData "piece")
  | some text =>
    match p.id with
    | none => .error (.MissingData "id")
    | some i =>
      match p.begin with
      | none => .error (.MissingData "begin")
      | some b =>
        match p.end_ with
        | none => .error (.MissingData "end")
        | some e => .ok ⟨text, i, (b, e)⟩

/-- `sp_text.pieces.into_iter().map(..).collect::<Result<_, _>>()`: convert
each record in order, stopping at the first error. -/
def convert_pieces : List SentencePiece → Except SentencePieceError (List PieceWithId)
  | [] => .ok []
  | p :: ps =>
    match convert_piece p with
    | .error e => .error e
    | .ok x =>
      match convert_pieces ps with
      | .error e => .error e
      | .ok xs => .ok (x :: xs)

/-- `SentencePieceProcessor::process_encode_protobuf` from lib.rs. The raw
response buffer is `c_proto : List Nat`; zero length returns
`Err(EncodeError)`; otherwise the buffer is deserialized by prost
(`prost::Message::decode`, an external crate, modelled by the `decode`
parameter), a deserialization failure being the `expect` panic; a decoded
message has its piece records converted. -/
def process_encode_protobuf (decode : List Nat → Option SentencePieceText)
    (c_proto : List Nat) : Outcome (Except SentencePieceError (List PieceWithId)) :=
  if c_proto.length = 0 then .returns (.error .EncodeError)
  else
    match decode c_proto with
    | none => .panics
    | some sp_text => .returns (convert_pieces sp_text.pieces)

/-- `SentencePieceProcessor::encode` from lib.rs: the native call
`spp_encode_as_serialized_proto` (modelled by the parameter
`spp_encode_as_serialized_proto`, a function from the sentence's bytes to the
response buffer; the native call exposes no status-code out-parameter) feeds
`process_encode_protobuf`. -/
def encode (spp_encode_as_serialized_proto : List Nat → List Nat)
    (decode : List Nat → Option SentencePieceText) (sentence : List Nat) :
    Outcome (Except SentencePieceError (List PieceWithId)) :=
  process_encode_protobuf decode (spp_encode_as_serialized_proto sentence)

/-- `SentencePieceProcessor::sample_encode` from lib.rs:
`assert!(n_best <= 512); assert!(alpha.is_normal() && alpha.is_positive());`
then the native call (modelled by `spp_sample_encode_as_serialized_proto`)
feeds `process_encode_protobuf`. A failed assertion is a panic before the
native call. -/
def sample_encode (spp_sample_encode_as_serialized_proto : List Nat → Nat → F32 → List Nat)
    (decode : List Nat → Option SentencePieceText) (sentence : List Nat)
    (n_best : Nat) (alpha : F32) :
    Outcome (Except SentencePieceError (List PieceWithId)) :=
  if n_best ≤ 512 && (alpha.is_normal && alpha.is_positive) then
    process_encode_protobuf decode
      (spp_sample_encode_as_serialized_proto sentence n_best alpha)
  else .panics

/-- `SentencePieceProcessor::open` from lib.rs (`open` is a Lean keyword):
`CString::new(path_bytes)` fails iff the path contains a NUL byte, giving
`FilenameContainsNul(path)` before the native `spp_load` call (modelled by
the `spp_load` parameter, whose status result goes through `handle_status`).
Success is modelled as `Unit` (the live processor). -/
def open_model (spp_load : List Nat → Int) (path : List Nat) :
    Outcome (Except SentencePieceError Unit) :=
  if path.contains 0 then .returns (.error (.FilenameContainsNul path))
  else
    match handle_status (spp_load path) with
    | .panics => .panics
    | .returns none => .returns (.ok ())
    | .returns (some e) => .returns (.error (.CError e))

/-- `SentencePieceProcessor::bos_id` from lib.rs: the native `spp_bos_id`
result (a C int, modelled as `Int`) is `None` when negative, else cast to
`u32`. -/
def bos_id (spp_bos_id : Int) : Option Nat :=
  if spp_bos_id < 0 then none else some spp_bos_id.toNat

/-- `SentencePieceProcessor::eos_id` from lib.rs: same shape as `bos_id`. -/
def eos_id (spp_eos_id : Int) : Option Nat :=
  if spp_eos_id < 0 then none else some spp_eos_id.toNat

/-- `SentencePieceProcessor::pad_id` from lib.rs: same shape as `bos_id`. -/
def pad_id (spp_pad_id : Int) : Option Nat :=
  if spp_pad_id < 0 then none else some spp_pad_id.toNat

/-- `SentencePieceProcessor::unk_id` from lib.rs: `assert!(unk_id >= 0)` then
`unk_id as u32` — a negative native sentinel panics; the return type is a
plain `u32`, not an `Option`. -/
def unk_id (spp_unk_id : Int) : Outcome Nat :=
  if spp_unk_id < 0 then .panics else .returns spp_unk_id.toNat

/-- `std::ffi::NulError`, produced by `CString::new` on input containing a
NUL byte; it records the position of the first NUL. -/
structure NulError where
  nul_position : Nat
deriving DecidableEq, Repr

/-- Position of the first NUL byte, as `CString::new` (memchr) finds it. -/
def first_nul : List Nat → Option Nat
  | [] => none
  | b :: bs =>
    if b = 0 then some 0 else (first_nul bs).map (· + 1)

/-- `SentencePieceProcessor::piece_to_id` from lib.rs:
`CString::new(piece.as_bytes())?` errors with the `NulError` when the piece
contains a NUL byte; otherwise the native `spp_piece_to_id` result (a C int)
is tested with `spp_is_unknown` — unknown gives `Ok(None)`, else
`Ok(Some(id as u32))` (the cast wraps modulo 2^32). The two native calls are
the parameters `spp_piece_to_id` and `spp_is_unknown`. -/
def piece_to_id (spp_piece_to_id : List Nat → Int) (spp_is_unknown : Int → Bool)
    (piece : List Nat) : Except NulError (Option Nat) :=
  match first_nul piece with
  | some i => .error ⟨i⟩
  | none =>
    let id := spp_piece_to_id piece
    if spp_is_unknown id then .ok none
    else .ok (some (id % (2 ^ 32 : Int)).toNat)

/-- Modelled from the spec: the native model blob load/serialize pair
(`spp_from_serialized_proto` / `spp_to_serialized_proto`, implemented in
sentencepiece-sys's C++ wrapper over the external engine, not under src/).
Per §6 the model blob is opaque and "round-trips byte-for-byte through
load→serialize", so a successfully loaded engine state retains the blob's
bytes; whether a blob loads is an abstract check, the `loads_ok` parameter of
`native_from_serialized_proto`. -/
structure NativeModelState where
  bytes : List Nat
deriving DecidableEq, Repr

/-- Modelled from the spec: the native `spp_from_serialized_proto` — a blob
passing the engine's validity check yields a loaded state holding the blob's
canonical bytes, anything else is a failure. -/
def native_from_serialized_proto (loads_ok : List Nat → Bool) (data : List Nat) :
    Option NativeModelState :=
  if loads_ok data then some ⟨data⟩ else none

/-- Modelled from the spec: the native `spp_to_serialized_proto` — the
loaded model's canonical serialized form. -/
def native_to_serialized_proto (state : NativeModelState) : List Nat :=
  state.bytes

/-- `SentencePieceProcessor::from_serialized_proto` from lib.rs, with its
native call spec-modelled: success hands back the loaded processor state. -/
def from_serialized_proto (loads_ok : List Nat → Bool) (data : List Nat) :
    Option NativeModelState :=
  native_from_serialized_proto loads_ok data

/-- `SentencePieceProcessor::to_serialized_proto` from lib.rs, with its
native call spec-modelled. -/
def to_serialized_proto (state : NativeModelState) : List Nat :=
  native_to_serialized_proto state

/-- Index of a piece in a vocabulary (a list of pieces, each a byte
sequence), used by the spec-modelled native lookup. -/
def find_index : List (List Nat) → List Nat → Option Nat
  | [], _ => none
  | v :: vs, piece =>
    if v = piece then some 0 else (find_index vs piece).map (· + 1)

/-- Modelled from the spec: the native `spp_piece_to_id` (implemented in the
external engine, not under src/) — a piece present in the vocabulary maps to
its stable index, an absent piece to the engine's reserved unknown
sentinel id (§4.4, glossary "Reserved ids"). -/
def native_piece_to_id (vocab : List (List Nat)) (unknown_id : Nat)
    (piece : List Nat) : Int :=
  match find_index vocab piece with
  | some i => (i : Int)
  | none => (unknown_id : Int)

/-- Modelled from the spec: the native `spp_is_unknown` — tests whether an id
is the engine's reserved unknown sentinel. -/
def native_is_unknown (unknown_id : Nat) (id : Int) : Bool :=
  id == (unknown_id : Int)

/-- Span contiguity along a list of `(begin, end)` pairs: each pair's begin
equals the previous pair's end. -/
def chain_ok : List (Nat × Nat) → Bool
  | [] => true
  | [_] => true
  | p :: q :: rest => q.1 == p.2 && chain_ok (q :: rest)

/-- The final span's end equals the input's byte length (vacuous for an
empty piece list). -/
def last_end_ok (spans : List (Nat × Nat)) (total : Nat) : Bool :=
  match spans.getLast? with
  | none => true
  | some p => p.2 == total

/-- The span-monotonicity property of §8: contiguous spans whose last end is
the input's byte length. -/
def span_monotone (spans : List (Nat × Nat)) (total : Nat) : Bool :=
  chain_ok spans && last_end_ok spans total

/-- The `(begin, end)` pair a wire record carries (defaulting absent fields,
which a successful conversion rules out). -/
def wire_span (p : SentencePiece) : Nat × Nat :=
  (p.begin.getD 0, p.end_.getD 0)

/-- All four fields `{piece, id, begin, end}` consumed by the binding are
present in a wire record (§3's invariant). -/
def record_complete (p : SentencePiece) : Bool :=
  p.piece.isSome && p.id.isSome && p.begin.isSome && p.end_.isSome

/-- `name` names one of the four consumed fields and that field is absent
from the record `p`. -/
def field_missing (p : SentencePiece) (name : String) : Bool :=
  (name == "piece" && p.piece.isNone) || (name == "id" && p.id.isNone) ||
    (name == "begin" && p.begin.isNone) || (name == "end" && p.end_.isNone)

/-- A wire message whose single record lacks the id field. -/
def incomplete_msg : SentencePieceText :=
  ⟨none, [⟨some "x", none, none, some 0, some 1⟩], none⟩

/-- A wire message with complete records whose spans leave a gap:
(0, 1) then (2, 3). -/
def gapped_msg : SentencePieceText :=
  ⟨none, [⟨some "a", some 1, none, some 0, some 1⟩,
          ⟨some "b", some 2, none, some 2, some 3⟩], none⟩

/-- The pieces the binding produces from `gapped_msg`. -/
def gapped_pieces : List PieceWithId :=
  [⟨"a", 1, (0, 1)⟩, ⟨"b", 2, (2, 3)⟩]

/-- A wire message with complete records and contiguous spans covering three
bytes. -/
def contiguous_msg : SentencePieceText :=
  ⟨none, [⟨some "ab", some 5, none, some 0, some 2⟩,
          ⟨some "c", some 6, none, some 2, some 3⟩], none⟩

/-- The pieces the binding produces from `contiguous_msg`. -/
def contiguous_pieces : List PieceWithId :=
  [⟨"ab", 5, (0, 2)⟩, ⟨"c", 6, (2, 3)⟩]

/-! Helper lemmas about the conversion of wire records. -/

theorem convert_piece_error_names (p : SentencePiece) (e : SentencePieceError)
    (h : convert_piece p = .error e) :
    ∃ name, e = .MissingData name ∧ field_missing p name = true := by
  rcases p with ⟨pp, pi, ps, pb, pe⟩
  cases pp <;> cases pi <;> cases pb <;> cases pe <;>
    simp only [convert_piece] at h <;>
    first
      | (injection h with h1; exact ⟨"piece", h1.symm, by simp [field_missing]⟩)
      | (injection h with h1; exact ⟨"id", h1.symm, by simp [field_missing]⟩)
      | (injection h with h1; exact ⟨"begin", h1.symm, by simp [field_missing]⟩)
      | (injection h with h1; exact ⟨"end", h1.symm, by simp [field_missing]⟩)
      | simp at h

theorem convert_piece_ok_of_complete (p : SentencePiece)
    (h : record_complete p = true) : ∃ x, convert_piece p = .ok x := by
  rcases p with ⟨pp, pi, ps, pb, pe⟩
  cases pp <;> cases pi <;> cases pb <;> cases pe <;>
    simp_all [convert_piece, record_complete]

theorem convert_piece_complete_of_ok (p : SentencePiece) (x : PieceWithId)
    (h : convert_piece p = .ok x) : record_complete p = true := by
  rcases p with ⟨pp, pi, ps, pb, pe⟩
  cases pp <;> cases pi <;> cases pb <;> cases pe <;>
    simp_all [convert_piece, record_complete]

theorem convert_piece_ok_span (p : SentencePiece) (x : PieceWithId)
    (h : convert_piece p = .ok x) : x.span = wire_span p := by
  rcases p with ⟨pp, pi, ps, pb, pe⟩
  cases pp <;> cases pi <;> cases pb <;> cases pe <;>
    simp_all [convert_piece, wire_span] <;> simp [← h]

theorem convert_pieces_error_missing (ps : List SentencePiece)
    (e : SentencePieceError) (h : convert_pieces ps = .error e) :
    ∃ name, e = .MissingData name ∧ ∃ p ∈ ps, field_missing p name = true := by
  induction ps with
  | nil => simp [convert_pieces] at h
  | cons p rest ih =>
    rw [convert_pieces] at h
    cases hp : convert_piece p with
    | error e1 =>
      rw [hp] at h
      obtain ⟨name, hn, hf⟩ := convert_piece_error_names p e1 hp
      cases h
      exact ⟨name, hn, p, by simp, hf⟩
    | ok x =>
      rw [hp] at h
      cases hr : convert_pieces rest with
      | error e2 =>
        rw [hr] at h
        cases h
        obtain ⟨name, hn, q, hq, hf⟩ := ih hr
        exact ⟨name, hn, q, by simp [hq], hf⟩
      | ok xs => rw [hr] at h; cases h

theorem convert_pieces_ok_of_complete (ps : List SentencePiece)
    (h : ∀ p ∈ ps, record_complete p = true) :
    ∃ out, convert_pieces ps = .ok out ∧ out.length = ps.length := by
  induction ps with
  | nil => exact ⟨[], rfl, rfl⟩
  | cons p rest ih =>
    obtain ⟨x, hx⟩ := convert_piece_ok_of_complete p (h p (by simp))
    obtain ⟨out, hout, hlen⟩ := ih (fun q hq => h q (by simp [hq]))
    exact ⟨x :: out, by rw [convert_pieces, hx, hout], by simp [hlen]⟩

theorem convert_pieces_ok_complete (ps : List SentencePiece)
    (out : List PieceWithId) (h : convert_pieces ps = .ok out) :
    ∀ p ∈ ps, record_complete p = true := by
  induction ps generalizing out with
  | nil => intro p hp; cases hp
  | cons q rest ih =>
    rw [convert_pieces] at h
    cases hq : convert_piece q with
    | error e => rw [hq] at h; cases h
    | ok x =>
      rw [hq] at h
      cases hr : convert_pieces rest with
      | error e => rw [hr] at h; cases h
      | ok xs =>
        rw [hr] at h
        intro p hp
        rcases List.mem_cons.mp hp with h1 | h1
        · exact h1 ▸ convert_piece_complete_of_ok q x hq
        · exact ih xs hr p h1

theorem convert_pieces_ok_spans (ps : List SentencePiece)
    (out : List PieceWithId) (h : convert_pieces ps = .ok out) :
    out.map PieceWithId.span = ps.map wire_span := by
  induction ps generalizing out with
  | nil => cases h; rfl
  | cons p rest ih =>
    rw [convert_pieces] at h
    cases hp : convert_piece p with
    | error e1 => rw [hp] at h; cases h
    | ok x =>
      rw [hp] at h
      cases hr : convert_pieces rest with
      | error e2 => rw [hr] at h; cases h
      | ok xs =>
        rw [hr] at h
        cases h
        simp [ih xs hr, convert_piece_ok_span p x hp]

theorem first_nul_some_of_mem (l : List Nat) (h : 0 ∈ l) :
    ∃ i, first_nul l = some i := by
  induction l with
  | nil => cases h
  | cons b bs ih =>
    by_cases hb : b = 0
    · exact ⟨0, by simp [first_nul, hb]⟩
    · have hbs : 0 ∈ bs := by
        rcases List.mem_cons.mp h with h1 | h1
        · exact absurd h1.symm hb
        · exact h1
      obtain ⟨i, hi⟩ := ih hbs
      exact ⟨i + 1, by simp [first_nul, hb, hi]⟩

/-- C1: for every byte sequence that loads successfully, loading with
`from_serialized_proto`, serializing with `to_serialized_proto`, loading the
serialization again and serializing once more yields the original byte
sequence. The native load/serialize pair is spec-modelled
(`native_from_serialized_proto` / `native_to_serialized_proto`); the law holds
for every loadability check `loads_ok`. -/
theorem from_to_serialized_proto_roundtrip (loads_ok : List Nat → Bool)
    (bytes : List Nat) (m : NativeModelState)
    (h : from_serialized_proto loads_ok bytes = some m) :
    (from_serialized_proto loads_ok (to_serialized_proto m)).map to_serialized_proto =
      some bytes := by
  unfold from_serialized_proto native_from_serialized_proto at h ⊢
  by_cases hb : loads_ok bytes
  · rw [if_pos hb] at h
    cases h
    unfold to_serialized_proto native_to_serialized_proto
    simp [hb]
  · rw [if_neg hb] at h
    cases h

/-- Witness for C1 at the trivial loadability check and the blob [1, 2, 3]. -/
theorem from_to_serialized_proto_roundtrip_witness :
    (from_serialized_proto (fun _ => true)
        (to_serialized_proto ⟨[1, 2, 3]⟩)).map to_serialized_proto =
      some [1, 2, 3] :=
  from_to_serialized_proto_roundtrip (fun _ => true) [1, 2, 3] ⟨[1, 2, 3]⟩ rfl

/-- C2: `encode` returns `EncodeError` exactly when the native call produces a
zero-length response buffer, and `EncodeError` is distinct from every
status-code (`CError`) variant. The native encode call is modelled as a
function from the sentence to the response buffer alone — it exposes no
status-code channel, so the status channel is not consulted on this path. -/
theorem encode_error_iff_empty_response :
    ∀ (spp_encode_as_serialized_proto : List Nat → List Nat)
      (decode : List Nat → Option SentencePieceText) (sentence : List Nat),
      (encode spp_encode_as_serialized_proto decode sentence =
          .returns (.error .EncodeError) ↔
        spp_encode_as_serialized_proto sentence = []) ∧
      ∀ e : CSentencePieceError,
        SentencePieceError.EncodeError ≠ SentencePieceError.CError e := by
  intro native decode sentence
  refine ⟨?_, fun e h => by cases h⟩
  unfold encode process_encode_protobuf
  by_cases hlen : (native sentence).length = 0
  · simp [hlen, List.length_eq_zero.mp hlen]
  · rw [if_neg hlen]
    constructor
    · intro h
      cases hdec : decode (native sentence) with
      | none => rw [hdec] at h; cases h
      | some msg =>
        rw [hdec] at h
        injection h with h1
        obtain ⟨name, hn, _⟩ := convert_pieces_error_missing msg.pieces _ h1
        cases hn
    · intro h
      exact absurd (by simp [h]) hlen

set_option maxHeartbeats 1000000 in
/-- C5: the status translation applied after every fallible native call
(`handle_status`) maps 0 to success, maps each of the sixteen codes 1..16 to
exactly one `CSentencePieceError` variant, and panics (`unreachable!`) on any
other non-zero code instead of coercing it to a recoverable error. -/
theorem handle_status_translation :
    ∀ code : Int,
      (code = 0 → handle_status code = .returns none) ∧
      (1 ≤ code ∧ code ≤ 16 →
        ∃ e, from_i32 code = some e ∧ handle_status code = .returns (some e) ∧
          ∀ e2, handle_status code = .returns (some e2) → e2 = e) ∧
      (code ≠ 0 ∧ ¬(1 ≤ code ∧ code ≤ 16) → handle_status code = .panics) := by
  intro code
  refine ⟨fun h => by rw [h]; rfl, fun ⟨h1, h2⟩ => ?_, fun ⟨h0, hr⟩ => ?_⟩
  · interval_cases code <;> decide
  · have hf : from_i32 code = none := by
      unfold from_i32
      rw [if_neg (show ¬code = 1 by omega), if_neg (show ¬code = 2 by omega),
        if_neg (show ¬code = 3 by omega), if_neg (show ¬code = 4 by omega),
        if_neg (show ¬code = 5 by omega), if_neg (show ¬code = 6 by omega),
        if_neg (show ¬code = 7 by omega), if_neg (show ¬code = 8 by omega),
        if_neg (show ¬code = 9 by omega), if_neg (show ¬code = 10 by omega),
        if_neg (show ¬code = 11 by omega), if_neg (show ¬code = 12 by omega),
        if_neg (show ¬code = 13 by omega), if_neg (show ¬code = 14 by omega),
        if_neg (show ¬code = 15 by omega), if_neg (show ¬code = 16 by omega)]
    unfold handle_status
    rw [if_neg h0, hf]

/-- C6: for every path containing an embedded NUL byte, `open` returns the
`FilenameContainsNul` error carrying that path, whatever the native load does
(the native call is never reached). -/
theorem open_nul_path_error (spp_load : List Nat → Int) (path : List Nat)
    (h : path.contains 0 = true) :
    open_model spp_load path = .returns (.error (.FilenameContainsNul path)) := by
  unfold open_model
  rw [if_pos h]

/-- Witness for C6 at the path bytes "t\x00p". -/
theorem open_nul_path_error_witness :
    open_model (fun _ => 0) [116, 0, 112] =
      .returns (.error (.FilenameContainsNul [116, 0, 112])) :=
  open_nul_path_error (fun _ => 0) [116, 0, 112] (by decide)

/-- C10: for every piece string containing a NUL byte, `piece_to_id` returns
an `Err` carrying a `NulError`, whatever the native lookup and unknown test do
(neither native call is reached); it neither panics (the modelled function has
no panic outcome) nor returns `Ok`. -/
theorem piece_to_id_nul_error (spp_piece_to_id_native : List Nat → Int)
    (spp_is_unknown_native : Int → Bool) (piece : List Nat)
    (h : piece.contains 0 = true) :
    ∃ e : NulError,
      piece_to_id spp_piece_to_id_native spp_is_unknown_native piece = .error e := by
  have hmem : 0 ∈ piece := by
    simpa using h
  obtain ⟨i, hi⟩ := first_nul_some_of_mem piece hmem
  exact ⟨⟨i⟩, by unfold piece_to_id; rw [hi]⟩

/-- Witness for C10 at the piece bytes "a\x00". -/
theorem piece_to_id_nul_error_witness :
    ∃ e : NulError,
      piece_to_id (fun _ => 0) (fun _ => false) [97, 0] = .error e :=
  piece_to_id_nul_error (fun _ => 0) (fun _ => false) [97, 0] (by decide)

/-- C3: for every encode or sample_encode call (both funnel their response
through `process_encode_protobuf`) whose non-empty response parses as a wire
message: if any piece record lacks one of the four consumed fields, the call
returns a `MissingData` error naming a missing field of some record; if every
record has all four fields, the call succeeds with one output piece per
record. -/
theorem process_encode_protobuf_field_presence
    (decode : List Nat → Option SentencePieceText) (buf : List Nat)
    (msg : SentencePieceText) (hne : buf ≠ []) (hdec : decode buf = some msg) :
    ((∃ p ∈ msg.pieces, record_complete p = false) →
      ∃ name, process_encode_protobuf decode buf =
          .returns (.error (.MissingData name)) ∧
        ∃ p ∈ msg.pieces, field_missing p name = true) ∧
    ((∀ p ∈ msg.pieces, record_complete p = true) →
      ∃ out, process_encode_protobuf decode buf = .returns (.ok out) ∧
        out.length = msg.pieces.length) := by
  have hproc : process_encode_protobuf decode buf =
      .returns (convert_pieces msg.pieces) := by
    unfold process_encode_protobuf
    rw [if_neg (by simpa using hne), hdec]
  constructor
  · intro ⟨p, hp, hinc⟩
    cases hcv : convert_pieces msg.pieces with
    | error e =>
      obtain ⟨name, hn, q, hq, hf⟩ := convert_pieces_error_missing msg.pieces e hcv
      exact ⟨name, by rw [hproc, hcv, hn], q, hq, hf⟩
    | ok out =>
      have hc := convert_pieces_ok_complete msg.pieces out hcv p hp
      rw [hinc] at hc
      cases hc
  · intro hall
    obtain ⟨out, hout, hlen⟩ := convert_pieces_ok_of_complete msg.pieces hall
    exact ⟨out, by rw [hproc, hout], hlen⟩

/-- Witness for C3 at a one-record message lacking the id field, delivered in
a one-byte response buffer. -/
theorem process_encode_protobuf_field_presence_witness :
    ∃ name, process_encode_protobuf (fun _ => some incomplete_msg) [1] =
        .returns (.error (.MissingData name)) ∧
      ∃ p ∈ incomplete_msg.pieces, field_missing p name = true :=
  (process_encode_protobuf_field_presence (fun _ => some incomplete_msg) [1]
      incomplete_msg (by decide) rfl).1 (by decide)

/-- C4 counterexample: the smallest positive subnormal f32 (sign 0,
exponent 0, fraction 1) is strictly positive and finite, and 10 ≤ 512, yet
`sample_encode` panics instead of reaching the native call — refuting the
claim that every strictly positive finite alpha with n_best ≤ 512 passes the
assertions (`assert!(alpha.is_normal() && alpha.is_positive())` also rejects
subnormals). -/
theorem sample_encode_subnormal_alpha_panics :
    F32.is_finite ⟨false, 0, 1⟩ = true ∧
      F32.strictly_positive ⟨false, 0, 1⟩ = true ∧
      (10 : Nat) ≤ 512 ∧
      sample_encode (fun _ _ _ => [1]) (fun _ => some ⟨none, [], none⟩)
          [] 10 ⟨false, 0, 1⟩ = Outcome.panics := by
  decide

/-- C4 amended: `sample_encode` panics before any native call exactly when
`n_best > 512` or alpha is not a positive *normal* float (zero, subnormal,
infinite and NaN alphas all panic, per `f32::is_normal`); for every
`n_best ≤ 512` and every positive normal alpha it reaches the native call
without panicking, its result being that of processing the native response. -/
theorem sample_encode_guard_characterization :
    ∀ (spp_sample_encode_as_serialized_proto : List Nat → Nat → F32 → List Nat)
      (decode : List Nat → Option SentencePieceText) (sentence : List Nat)
      (n_best : Nat) (alpha : F32),
      (¬(n_best ≤ 512 ∧ alpha.is_normal = true ∧ alpha.is_positive = true) →
        sample_encode spp_sample_encode_as_serialized_proto decode sentence
          n_best alpha = .panics) ∧
      ((n_best ≤ 512 ∧ alpha.is_normal = true ∧ alpha.is_positive = true) →
        sample_encode spp_sample_encode_as_serialized_proto decode sentence
            n_best alpha =
          process_encode_protobuf decode
            (spp_sample_encode_as_serialized_proto sentence n_best alpha)) := by
  intro native decode sentence n_best alpha
  unfold sample_encode
  constructor
  · intro h
    rw [if_neg]
    simpa [not_and_or, Decidable.not_not] using h
  · intro ⟨h1, h2, h3⟩
    rw [if_pos]
    simp [h1, h2, h3]

/-- C7: for every NUL-free piece absent from the loaded model's vocabulary,
`piece_to_id` returns `Ok(None)` (the unknown sentinel) — never a status
error (the function's error channel holds only `NulError`, and none is
produced). The native lookup and unknown test are spec-modelled
(`native_piece_to_id` / `native_is_unknown`): an absent piece maps to the
reserved unknown sentinel id. -/
theorem piece_to_id_absent_none (vocab : List (List Nat)) (unknown_id : Nat)
    (piece : List Nat) (hnul : first_nul piece = none) (habs : piece ∉ vocab) :
    piece_to_id (native_piece_to_id vocab unknown_id)
      (native_is_unknown unknown_id) piece = .ok none := by
  have hfi : find_index vocab piece = none := by
    induction vocab with
    | nil => rfl
    | cons v vs ih =>
      have hne : v ≠ piece := fun h => habs (by simp [h])
      have hvs : piece ∉ vs := fun h => habs (by simp [h])
      rw [find_index, if_neg hne, ih hvs]
      rfl
  unfold piece_to_id
  rw [hnul]
  unfold native_piece_to_id
  rw [hfi]
  unfold native_is_unknown
  simp

/-- Witness for C7: the piece "b" is absent from the one-piece vocabulary
{"a"} with unknown id 0. -/
theorem piece_to_id_absent_none_witness :
    piece_to_id (native_piece_to_id [[97]] 0) (native_is_unknown 0) [98] =
      .ok none :=
  piece_to_id_absent_none [[97]] 0 [98] rfl (by decide)

/-- C8 counterexample: on a negative native sentinel the `unk_id` accessor
panics (`assert!(unk_id >= 0)`) and returns a plain `u32`, not `None` — while
`bos_id`, `eos_id` and `pad_id` do return `None` — refuting the claim that
each of the four reserved-id accessors yields `None` on a negative sentinel
and never an error. -/
theorem unk_id_negative_sentinel_panics :
    unk_id (-1) = Outcome.panics ∧ bos_id (-1) = none ∧
      eos_id (-1) = none ∧ pad_id (-1) = none := by
  decide

/-- C8 amended: the `bos_id`, `eos_id` and `pad_id` accessors return
`Option<u32>`, yielding `None` exactly when the native sentinel is negative
and the cast sentinel otherwise, never an error; the `unk_id` accessor
instead returns a plain `u32`, panicking (assertion) exactly when the native
sentinel is negative. -/
theorem reserved_id_accessors :
    ∀ v : Int,
      (bos_id v = none ↔ v < 0) ∧ (bos_id v = some v.toNat ↔ 0 ≤ v) ∧
      (eos_id v = none ↔ v < 0) ∧ (eos_id v = some v.toNat ↔ 0 ≤ v) ∧
      (pad_id v = none ↔ v < 0) ∧ (pad_id v = some v.toNat ↔ 0 ≤ v) ∧
      (unk_id v = Outcome.panics ↔ v < 0) ∧
      (unk_id v = .returns v.toNat ↔ 0 ≤ v) := by
  intro v
  rcases lt_or_le v 0 with h | h
  · simp [bos_id, eos_id, pad_id, unk_id, h]
  · simp [bos_id, eos_id, pad_id, unk_id, not_lt.mpr h, h]

/-- C9 counterexample: a native response whose records are complete but whose
spans leave a gap — (0, 1) then (2, 3) on the 3-byte input "abc" — is
accepted: `encode` succeeds, yet the result's spans are not contiguous and so
violate the claimed invariant. The binding does not validate spans. -/
theorem encode_span_gap_accepted :
    encode (fun _ => [1]) (fun _ => some gapped_msg) [97, 98, 99] =
        .returns (.ok gapped_pieces) ∧
      span_monotone (gapped_pieces.map PieceWithId.span) 3 = false := by
  decide

/-- C9 amended: the binding copies the native-reported spans verbatim — a
successful encode result's spans are exactly the wire records' (begin, end)
pairs — so span monotonicity holds for a result exactly when the native
response satisfies it; the binding itself neither checks nor enforces it. -/
theorem encode_preserves_wire_spans
    (decode : List Nat → Option SentencePieceText) (buf : List Nat)
    (msg : SentencePieceText) (pieces : List PieceWithId)
    (hdec : decode buf = some msg)
    (hok : process_encode_protobuf decode buf = .returns (.ok pieces)) :
    pieces.map PieceWithId.span = msg.pieces.map wire_span ∧
      ∀ total : Nat,
        span_monotone (pieces.map PieceWithId.span) total =
          span_monotone (msg.pieces.map wire_span) total := by
  unfold process_encode_protobuf at hok
  by_cases hlen : buf.length = 0
  · rw [if_pos hlen] at hok
    cases hok
  · rw [if_neg hlen, hdec] at hok
    injection hok with h1
    have hmap := convert_pieces_ok_spans msg.pieces pieces h1
    exact ⟨hmap, fun total => by rw [hmap]⟩

/-- Witness for C9 amended at a contiguous two-record message delivered in a
one-byte response buffer. -/
theorem encode_preserves_wire_spans_witness :
    contiguous_pieces.map PieceWithId.span =
      contiguous_msg.pieces.map wire_span :=
  (encode_preserves_wire_spans (fun _ => some contiguous_msg) [1]
      contiguous_msg contiguous_pieces rfl (by decide)).1

end SP
